import Mathlib

/-!
Shallow embedding of the cffadb ledger & summary reconciliation engine
(`dbinterface.py`, class `FootballDB`) together with the record shapes it
exchanges (`footballClasses.py`).

Modelling conventions:
* Monetary values (`bson.Decimal128`, Python `float` intermediates) are
  modelled as exact rationals; the `Decimal128 -> float -> str -> Decimal128`
  round-trips performed by the source are modelled as exact (identity).
* `datetime.datetime` values are modelled as an abstract integer day count:
  `datetime(1970,1,1)` is day `0` and `datetime(2010,1,1)` is day `14610`.
  Only ordering of dates matters to the code.
* A MongoDB document with dynamic per-player keys (a game document) is
  modelled as a structure holding the fixed fields plus two association
  lists: one for the per-player attendance-marker keys, one for the
  `<name>_guests` keys.  Key lookup is exact string match (the source
  queries use a strength-1 collation, i.e. case/punctuation-insensitive
  value comparison; no claim in scope exercises that corner).
* Mongo `_id` values are modelled as `Nat` (`gid` field).
* Python exceptions escaping an operation are modelled by `PyResult`:
  an operation returns its final store state together with either
  `.returned v` (normal return value `v`) or `.raised e` (the exception
  the Python code would raise at that point, with all writes performed
  before the raise kept in the returned state).
-/

namespace Cffadb

/-- Monetary amounts (`Decimal128` values) modelled as exact rationals. -/
abbrev Money := ℚ

/-- Dates as abstract day numbers (`datetime` ordering is all the code uses). -/
abbrev Date := ℤ

/-- Model of `datetime.datetime(1970, 1, 1, 0, 0)`, the epoch sentinel. -/
def epochDate : Date := 0

/-- Model of `datetime.datetime(2010, 1, 1, 0, 0)`, the hard-coded date given
to the synthetic opening-balance ledger entry in `calc_ledger_for_player`. -/
def adjustmentDate : Date := 14610

/-- Exceptions of interest that `dbinterface.py` can let escape, plus
`invalidGameError`, the error the specification names for zero-unit games
(modelled from the spec; no such exception class exists in the source). -/
inductive PyError where
  | zeroDivisionError
  | noneTypeError
  | invalidGameError
deriving DecidableEq, Repr

/-- Outcome of a Python method call: a normal return value, or an exception
that escaped the call. -/
inductive PyResult (α : Type) where
  | returned (a : α)
  | raised (e : PyError)
deriving DecidableEq, Repr

/-- Association-list lookup for dynamic document keys (exact key match). -/
def lookupKey {α : Type} : List (String × α) → String → Option α
  | [], _ => none
  | (k, v) :: rest, key => if k = key then some v else lookupKey rest key

/-- Python-dict-style key assignment: overwrite in place, else append. -/
def setKey {α : Type} : List (String × α) → String → α → List (String × α)
  | [], key, v => [(key, v)]
  | (k, w) :: rest, key, v =>
    if k = key then (key, v) :: rest else (k, w) :: setKey rest key v

/-- Python-dict-style `pop(key, None)`: drop the key if present. -/
def delKey {α : Type} : List (String × α) → String → List (String × α)
  | [], _ => []
  | (k, w) :: rest, key => if k = key then rest else (k, w) :: delKey rest key

/-- A document of the Games collection.  `booker = none` models a document
with no `"Booker"` key at all (as produced by the spreadsheet import). -/
structure GameDoc where
  gid : Nat
  date : Date
  cost : Money
  attendance : List (String × String)
  guests : List (String × Int)
  units : Int
  costEach : Money
  booker : Option String
deriving DecidableEq, Repr

/-- A document of the Payments collection.  `player = none` models the Python
value `None` in the `"Player"` field. -/
structure PaymentDoc where
  player : Option String
  ptype : String
  amount : Money
  date : Date
deriving DecidableEq, Repr

/-- A document of the Adjustments collection. -/
structure AdjustmentDoc where
  name : String
  adjust : Money
deriving DecidableEq, Repr

/-- A document of the PlayerSummary (`teamSummary`) collection. -/
structure SummaryRow where
  playerName : String
  gamesAttended : Int
  lastPlayed : Date
  gamesCost : Money
  moniespaid : Money
  balance : Money
deriving DecidableEq, Repr

/-- A document of the `teamPlayers` collection. -/
structure TeamPlayerDoc where
  playerName : String
  retiree : Bool
  comment : String
deriving DecidableEq, Repr

/-- The per-tenant record store: the five collections the core touches.
Lists are kept in insertion (natural) order; `insert` appends. -/
structure DBState where
  games : List GameDoc
  payments : List PaymentDoc
  adjustments : List AdjustmentDoc
  teamSummary : List SummaryRow
  teamPlayers : List TeamPlayerDoc
deriving DecidableEq, Repr

/-- The attendance-marker values matched by the `$in` filter
`["Win", "Lose", "Draw", "No Show"]` used by the summary and ledger scans. -/
def attendedValue (v : String) : Bool :=
  v = "Win" || v = "Lose" || v = "Draw" || v = "No Show"

/-- Whether a game document marks `p` as having attended: the player-name key
exists and carries one of the four attendance markers. -/
def GameDoc.attended (g : GameDoc) (p : String) : Bool :=
  match lookupKey g.attendance p with
  | some v => attendedValue v
  | none => false

/-- Games in which `p` is marked attended (the
`games.find({player: {"$in": [...]}})` scan). -/
def attendedGames (games : List GameDoc) (p : String) : List GameDoc :=
  games.filter (fun g => g.attended p)

/-- Games whose document has a `<p>_guests` key (the `$exists` scan). -/
def guestGames (games : List GameDoc) (p : String) : List GameDoc :=
  games.filter (fun g => (lookupKey g.guests p).isSome)

/-- Per-game cost share recomputed by the scans:
`Cost of Game / Players` (`game_cost` in the source). -/
def gameShare (g : GameDoc) : Money :=
  g.cost / (g.units : Money)

/-- Accumulated cost of games `p` attended (first scan of
`calc_populate_team_summary`). -/
def attendedCost (games : List GameDoc) (p : String) : Money :=
  (attendedGames games p).foldl (fun acc g => acc + gameShare g) 0

/-- Accumulated guest cost for games where `p` hosts guests (second scan of
`calc_populate_team_summary`): `guestCount * game_cost` per game. -/
def guestCost (games : List GameDoc) (p : String) : Money :=
  (guestGames games p).foldl
    (fun acc g => acc + ((lookupKey g.guests p).getD 0 : Int) * gameShare g) 0

/-- Aggregated payments per player (`get_aggregated_payments` plus the
`.get(player, Decimal128("0.00"))` default): sum of `Amount` over the
player's payment documents, `0` when there are none. -/
def aggregatedPayments (payments : List PaymentDoc) (p : String) : Money :=
  (payments.filter (fun t => t.player = some p)).foldl
    (fun acc t => acc + t.amount) 0

/-- First Adjustments document for a name (`adjustments.find_one({"name": p})`). -/
def findAdjustment : List AdjustmentDoc → String → Option AdjustmentDoc
  | [], _ => none
  | a :: rest, p => if a.name = p then some a else findAdjustment rest p

/-- Adjustment amount for `p`, defaulting to `0` when the player has no
Adjustment document (the `TypeError` fallback in the source). -/
def adjustFor (st : DBState) (p : String) : Money :=
  match findAdjustment st.adjustments p with
  | some a => a.adjust
  | none => 0

/-- Most recent `Date of Game` over games `p` attended (the sort-descending,
limit-1 query), defaulting to the 1970 epoch sentinel when `p` never played. -/
def lastPlayedFor (games : List GameDoc) (p : String) : Date :=
  match (attendedGames games p).map GameDoc.date with
  | [] => epochDate
  | d :: ds => ds.foldl max d

/-- The summary document `calc_populate_team_summary` builds for one player. -/
def summaryRowFor (st : DBState) (p : String) : SummaryRow :=
  { playerName := p
  , gamesAttended := ((attendedGames st.games p).length : Int)
  , lastPlayed := lastPlayedFor st.games p
  , gamesCost := attendedCost st.games p + guestCost st.games p
  , moniespaid := aggregatedPayments st.payments p
  , balance :=
      aggregatedPayments st.payments p
        - (attendedCost st.games p + guestCost st.games p)
        + adjustFor st p }

/-- The Summary Recalculator (`calc_populate_team_summary`): drops the whole
`teamSummary` collection and bulk-inserts one freshly computed row per player
in the given player list. -/
def calc_populate_team_summary (players : List String) (st : DBState) : DBState :=
  { st with teamSummary := players.map (summaryRowFor st) }

/-- First `teamSummary` document for a player name
(`teamSummary.find_one({"playerName": p})`). -/
def findSummaryRow : List SummaryRow → String → Option SummaryRow
  | [], _ => none
  | r :: rest, p => if r.playerName = p then some r else findSummaryRow rest p

/-- First Games document with the given id (`games.find_one({"_id": id})`). -/
def findGame : List GameDoc → Nat → Option GameDoc
  | [], _ => none
  | g :: rest, gid => if g.gid = gid then some g else findGame rest gid

/-- `games.delete_one({"_id": id})`: remove the first matching document. -/
def deleteGameById : List GameDoc → Nat → List GameDoc
  | [], _ => []
  | g :: rest, gid => if g.gid = gid then rest else g :: deleteGameById rest gid

/-- The zeroed summary document `add_player` inserts for a new player. -/
def zeroSummaryRow (p : String) : SummaryRow :=
  { playerName := p
  , gamesAttended := 0
  , lastPlayed := epochDate
  , gamesCost := 0
  , moniespaid := 0
  , balance := 0 }

/-- Python list membership (`player.playername in all_players`). -/
def containsName : List String → String → Bool
  | [], _ => false
  | q :: rest, p => if q = p then true else containsName rest p

/-- Model of `add_player`: if the name already appears in the summary
collection (`get_player_labels` reads `teamSummary`), do nothing; otherwise
insert a `teamPlayers` document and a zeroed summary row. -/
def add_player (p : String) (comment : String) (st : DBState) : DBState :=
  if containsName (st.teamSummary.map SummaryRow.playerName) p then st
  else
    { st with
      teamPlayers := st.teamPlayers ++ [{ playerName := p, retiree := false, comment := comment }]
      teamSummary := st.teamSummary ++ [zeroSummaryRow p] }

end Cffadb

namespace Cffadb

/-- One entry of the game form (`footballClasses` player object as read by
`dbinterface.py`: `playername`, `playedlastgame`, `pitchbooker`, `guests`). -/
structure FormPlayer where
  playername : String
  playedlastgame : Bool
  pitchbooker : Bool
  guests : Int
deriving DecidableEq, Repr

/-- The game form object (`gamecost`, `gamedate`, `playerlist`, `booker` as
read by `dbinterface.py`). -/
structure GameForm where
  gamecost : Money
  gamedate : Date
  playerlist : List FormPlayer
  booker : String
deriving DecidableEq, Repr

/-- `total_players_this_game` as accumulated by the create/edit loops: one
unit per attending player, plus the guest count of every player with a
positive guest count. -/
def totalFormUnits : List FormPlayer → Int
  | [] => 0
  | p :: rest =>
    (if p.playedlastgame then 1 else 0)
      + (if 0 < p.guests then p.guests else 0)
      + totalFormUnits rest

/-- Attendance-marker keys of a freshly created game record: one
`name -> "Draw"` key per attending player. -/
def buildAttendance (pl : List FormPlayer) : List (String × String) :=
  pl.foldl (fun acc p => if p.playedlastgame then setKey acc p.playername "Draw" else acc) []

/-- Guest keys of a freshly created game record: one `name_guests -> n` key
per player with a positive guest count. -/
def buildGuests (pl : List FormPlayer) : List (String × Int) :=
  pl.foldl (fun acc p => if 0 < p.guests then setKey acc p.playername p.guests else acc) []

/-- Fresh Mongo `_id` for an inserted game document. -/
def freshGid (games : List GameDoc) : Nat :=
  games.foldl (fun acc g => max acc (g.gid + 1)) 0

/-- Replace the first summary row with the given player name. -/
def updateFirstRow : List SummaryRow → String → (SummaryRow → SummaryRow) → List SummaryRow
  | [], _, _ => []
  | r :: rest, p, f =>
    if r.playerName = p then f r :: rest else r :: updateFirstRow rest p f

/-- The attendance patch `add_game` applies to an attending player's summary
row: add the cost share, debit the balance, stamp the game date, bump the
attendance count. -/
def playedUpdate (d : Date) (costEach : Money) (r : SummaryRow) : SummaryRow :=
  { r with
    gamesCost := r.gamesCost + costEach
    balance := r.balance - costEach
    lastPlayed := d
    gamesAttended := r.gamesAttended + 1 }

/-- The booking-credit patch: add the full game cost to the balance. -/
def bookerUpdate (cost : Money) (r : SummaryRow) : SummaryRow :=
  { r with balance := r.balance + cost }

/-- The guest patch: debit `costEach * guests` from the balance. -/
def guestUpdate (costEach : Money) (guests : Int) (r : SummaryRow) : SummaryRow :=
  { r with balance := r.balance - costEach * (guests : Money) }

/-- The per-player summary effects applied in one iteration of the `add_game`
player loop, once a summary document for the player is in hand. -/
def addGamePlayerEffects (form : GameForm) (costEach : Money) (p : FormPlayer)
    (st : DBState) : DBState :=
  let st2 :=
    if p.playedlastgame then
      { st with
        teamSummary :=
          updateFirstRow st.teamSummary p.playername (playedUpdate form.gamedate costEach) }
    else st
  let st3 :=
    if p.pitchbooker then
      { st2 with
        teamSummary := updateFirstRow st2.teamSummary p.playername (bookerUpdate form.gamecost)
        payments :=
          st2.payments ++
            [{ player := some p.playername
             , ptype := "CFFA Booking Credit"
             , amount := form.gamecost
             , date := form.gamedate }] }
    else st2
  if 0 < p.guests then
    { st3 with
      teamSummary := updateFirstRow st3.teamSummary p.playername (guestUpdate costEach p.guests) }
  else st3

/-- The `add_game` player loop: fetch (or create) each player's summary row,
then apply the attendance, booking-credit and guest effects.  Aborts with
`returned false` when the row is still missing after `add_player`, and raises
(`'NoneType' object has no attribute 'get'`) when an unnamed player with any
effect flag reaches the patch code with no document. -/
def addGameLoop (form : GameForm) (costEach : Money) :
    List FormPlayer → DBState → DBState × PyResult Bool
  | [], st => (st, .returned true)
  | p :: rest, st =>
    match findSummaryRow st.teamSummary p.playername with
    | some _ => addGameLoop form costEach rest (addGamePlayerEffects form costEach p st)
    | none =>
      if p.playername = "" then
        if p.playedlastgame || p.pitchbooker || decide (0 < p.guests) then
          (st, .raised .noneTypeError)
        else addGameLoop form costEach rest st
      else
        let st1 := add_player p.playername "Created from a New Game" st
        match findSummaryRow st1.teamSummary p.playername with
        | none => (st1, .returned false)
        | some _ => addGameLoop form costEach rest (addGamePlayerEffects form costEach p st1)

/-- `add_game`: build the game record from the form, divide the cost by the
total attendance units (`ZeroDivisionError` when they are zero, before any
write), insert the game document, then incrementally patch each listed
player's summary row. -/
def add_game (form : GameForm) (st : DBState) : DBState × PyResult Bool :=
  let units := totalFormUnits form.playerlist
  if units = 0 then (st, .raised .zeroDivisionError)
  else
    let costEach := form.gamecost / (units : Money)
    let g : GameDoc :=
      { gid := freshGid st.games
      , date := form.gamedate
      , cost := form.gamecost
      , attendance := buildAttendance form.playerlist
      , guests := buildGuests form.playerlist
      , units := units
      , costEach := costEach
      , booker := some form.booker }
    addGameLoop form costEach form.playerlist { st with games := st.games ++ [g] }

/-- Rendering of a date into the `y/m/d` string interpolated into
compensation-payment descriptions and result messages (abstracted: the exact
text of the rendering is irrelevant to the claims, only its injectivity in
the date). -/
def dateString (d : Date) : String := toString d

/-- The first compensating payment `edit_game` inserts when the booker or the
game cost changed: reverse the original booking credit against the original
booker (who may be `None` for an imported game). -/
def editRemovePayment (origBooker : Option String) (origCost : Money)
    (form : GameForm) (now : Date) : PaymentDoc :=
  { player := origBooker
  , ptype := "CFFA Game Edit for " ++ dateString form.gamedate ++
      ". Booker change - remove original game credit"
  , amount := -origCost
  , date := now }

/-- The second compensating payment `edit_game` inserts when the booker or the
game cost changed: add the full new cost against the new booker. -/
def editAddPayment (form : GameForm) (now : Date) : PaymentDoc :=
  { player := some form.booker
  , ptype := "CFFA Game Edit for " ++ dateString form.gamedate ++
      ". Booker change - add new game credit"
  , amount := form.gamecost
  , date := now }

/-- The in-memory accumulator threaded through the `edit_game` player loop:
the store state (new players may be created mid-loop), the game record's
attendance and guest keys as mutated so far, the `team_string` list, and the
running `total_players_this_game` count. -/
structure EditAcc where
  st : DBState
  attendance : List (String × String)
  guests : List (String × Int)
  teamString : List String
  units : Int

/-- One iteration's mutation of the game record in the `edit_game` loop:
set or pop the attendance marker, set or pop the guest key, extend
`team_string`, bump the unit count. -/
def editRecordStep (p : FormPlayer) (acc : EditAcc) (st : DBState) : EditAcc :=
  let att :=
    if p.playedlastgame then setKey acc.attendance p.playername "Draw"
    else delKey acc.attendance p.playername
  let ts := if p.playedlastgame then acc.teamString ++ [p.playername] else acc.teamString
  let u := if p.playedlastgame then acc.units + 1 else acc.units
  let gs :=
    if 0 < p.guests then setKey acc.guests p.playername p.guests
    else delKey acc.guests p.playername
  let ts2 :=
    if 0 < p.guests then
      ts ++ [p.playername ++ "_has_" ++ toString p.guests ++ "_guests"]
    else ts
  let u2 := if 0 < p.guests then u + p.guests else u
  { st := st, attendance := att, guests := gs, teamString := ts2, units := u2 }

/-- The `edit_game` player loop: create unseen players (aborting with
`returned false` if the summary row is still missing afterwards), then apply
`editRecordStep` for each form player. -/
def editPlayersLoop : List FormPlayer → EditAcc → EditAcc ⊕ (DBState × PyResult Bool)
  | [], acc => .inl acc
  | p :: rest, acc =>
    match findSummaryRow acc.st.teamSummary p.playername with
    | some _ => editPlayersLoop rest (editRecordStep p acc acc.st)
    | none =>
      if p.playername = "" then editPlayersLoop rest (editRecordStep p acc acc.st)
      else
        let st1 := add_player p.playername "Created from an Edited Game" acc.st
        match findSummaryRow st1.teamSummary p.playername with
        | none => .inr (st1, .returned false)
        | some _ => editPlayersLoop rest (editRecordStep p acc st1)

/-- The values whose presence marks a game-record key as a per-player
attendance marker during the stale-key purge of `edit_game`. -/
def purgeValues : List String :=
  ["Win", "win", "Draw", "draw", "Lose", "lose", "no show", "No Show", "no play", "No Play"]

/-- The stale-attendance purge: drop every attendance-marker key whose player
is not named in the rebuilt `team_string`. -/
def purgeAttendance (att : List (String × String)) (teamString : List String) :
    List (String × String) :=
  att.filter (fun kv => !(purgeValues.contains kv.2 && !teamString.contains kv.1))

/-- `edit_game`: fetch the game document (an unknown id raises — the source
immediately subscripts `None`), rebuild its per-player keys from the form,
purge stale attendance markers, recompute the unit count (raising
`ZeroDivisionError` on zero units before the game is rewritten), replace the
game document (delete + reinsert under the same id), insert the two
compensating payments when the booker or the cost changed (crashing after
the first when the original document had no booker: the source concatenates
`None` into a log message), and finally rebuild every summary row via the
Summary Recalculator. -/
def edit_game (gid : Nat) (form : GameForm) (now : Date) (st : DBState) :
    DBState × PyResult Bool :=
  match findGame st.games gid with
  | none => (st, .raised .noneTypeError)
  | some g =>
    match editPlayersLoop form.playerlist
        { st := st, attendance := g.attendance, guests := g.guests
        , teamString := [], units := 0 } with
    | .inr aborted => aborted
    | .inl acc =>
      let att := purgeAttendance acc.attendance acc.teamString
      if acc.units = 0 then (acc.st, .raised .zeroDivisionError)
      else
        let costEach := form.gamecost / (acc.units : Money)
        let newDoc : GameDoc :=
          { gid := gid
          , date := form.gamedate
          , cost := form.gamecost
          , attendance := att
          , guests := acc.guests
          , units := acc.units
          , costEach := costEach
          , booker := some form.booker }
        let st1 := { acc.st with games := deleteGameById acc.st.games gid ++ [newDoc] }
        if g.booker ≠ some form.booker ∨ g.cost ≠ form.gamecost then
          let st2 :=
            { st1 with payments := st1.payments ++ [editRemovePayment g.booker g.cost form now] }
          match g.booker with
          | none => (st2, .raised .noneTypeError)
          | some _ =>
            let st3 := { st2 with payments := st2.payments ++ [editAddPayment form now] }
            (calc_populate_team_summary (st3.teamSummary.map SummaryRow.playerName) st3,
              .returned true)
        else
          (calc_populate_team_summary (st1.teamSummary.map SummaryRow.playerName) st1,
            .returned true)

/-- The single compensating payment `delete_game` inserts.  Its `Player`
field is copied from the game document's `Booker` key before the
key-existence check, so it is `None` for a bookerless game. -/
def deletePayment (g : GameDoc) (now : Date) : PaymentDoc :=
  match g.booker with
  | some _ =>
    { player := g.booker
    , ptype := "CFFA Game Deletion for " ++ dateString g.date ++
        ". Booker removal - game credit"
    , amount := -g.cost
    , date := now }
  | none =>
    { player := g.booker
    , ptype := "CFFA Game Deletion for " ++ dateString g.date ++
        ". No booker set: no booker credit."
    , amount := 0
    , date := now }

/-- The result message `delete_game` returns. -/
def deleteMessage (g : GameDoc) : String :=
  match g.booker with
  | some _ => "Game " ++ dateString g.date ++ " deleted and transactions adjusted."
  | none =>
    "Warning: Game had no booker - will need manual review of past transactions to " ++
      "remove booker credit"

/-- `delete_game`: fetch the game document (an unknown id raises — the source
calls `.get` on `None`), insert one compensating payment (full-cost reversal
against the recorded booker, or a zero-amount manual-review entry when the
document has no `Booker` key), delete the game document, and rebuild every
summary row via the Summary Recalculator. -/
def delete_game (gid : Nat) (now : Date) (st : DBState) : DBState × PyResult String :=
  match findGame st.games gid with
  | none => (st, .raised .noneTypeError)
  | some g =>
    let st1 :=
      { st with
        payments := st.payments ++ [deletePayment g now]
        games := deleteGameById st.games gid }
    (calc_populate_team_summary (st1.teamSummary.map SummaryRow.playerName) st1,
      .returned (deleteMessage g))

/-- An ephemeral ledger entry (`footballClasses.LedgerEntry`).  The Python
object uses `""` for an absent credit/debit; this is modelled with `Option`.
The `balance` field starts as the constructor argument (`0` models the
initial `""`) and is overwritten by the running-balance walk. -/
structure LedgerEntry where
  date : Date
  credit : Option Money
  debit : Option Money
  balance : Money
  description : String
deriving DecidableEq, Repr

/-- Round-half-to-even to an integer, the semantics of Python's `round`
applied to the exact value (the source rounds presentation figures through
`round(x, 2)`; binary-float representation error is idealised away). -/
def roundHalfEven (x : ℚ) : ℤ :=
  let f := Int.fdiv x.num (x.den : ℤ)
  let r := x - (f : ℚ)
  if r < 1 / 2 then f
  else if 1 / 2 < r then f + 1
  else if f % 2 = 0 then f else f + 1

/-- Python `round(x, 2)` on the exact value. -/
def round2 (x : ℚ) : ℚ := (roundHalfEven (x * 100) : ℚ) / 100

/-- The synthetic opening-balance entry built from a player's Adjustment
document, dated with the hard-coded `datetime(2010, 1, 1)`: a credit when the
adjustment is strictly positive, otherwise a debit of its absolute value. -/
def adjustmentLedgerEntry (a : AdjustmentDoc) : LedgerEntry :=
  if 0 < a.adjust then
    { date := adjustmentDate, credit := some a.adjust, debit := none
    , balance := 0, description := "Initial balance adjustment" }
  else
    { date := adjustmentDate, credit := none, debit := some |a.adjust|
    , balance := 0, description := "Initial balance adjustment" }

/-- Ledger entry for a game the player attended: a debit of the cost share
recomputed fresh from `Cost of Game / Players`. -/
def gameLedgerEntry (g : GameDoc) : LedgerEntry :=
  { date := g.date, credit := none, debit := some (gameShare g)
  , balance := 0, description := "Game" }

/-- Ledger entry for one of the player's payments: a credit for a
non-negative amount, otherwise a debit of the absolute value. -/
def paymentLedgerEntry (t : PaymentDoc) : LedgerEntry :=
  if 0 ≤ t.amount then
    { date := t.date, credit := some t.amount, debit := none
    , balance := 0, description := t.ptype }
  else
    { date := t.date, credit := none, debit := some |t.amount|
    , balance := 0, description := t.ptype }

/-- Stable ascending insertion by date: a new element goes in front of the
first existing element it does not strictly follow. -/
def insAsc (e : LedgerEntry) : List LedgerEntry → List LedgerEntry
  | [] => [e]
  | x :: xs => if e.date ≤ x.date then e :: x :: xs else x :: insAsc e xs

/-- Stable ascending sort by date (extensionally the stable
`sorted(ledger, key=date)` of the source). -/
def sortAscByDate (l : List LedgerEntry) : List LedgerEntry :=
  l.foldr insAsc []

/-- Stable descending insertion by date. -/
def insDesc (e : LedgerEntry) : List LedgerEntry → List LedgerEntry
  | [] => [e]
  | x :: xs => if x.date ≤ e.date then e :: x :: xs else x :: insDesc e xs

/-- Stable descending sort by date (the final
`sorted(ledger, key=date, reverse=True)` of the source). -/
def sortDescByDate (l : List LedgerEntry) : List LedgerEntry :=
  l.foldr insDesc []

/-- The running-balance walk: accumulate `balance += credit - debit` using
the raw amounts, writing the rounded running balance into each entry and
rounding the credit/debit figures for presentation. -/
def walkBalance (rb : ℚ) : List LedgerEntry → List LedgerEntry
  | [] => []
  | e :: es =>
    let credit := (e.credit.getD 0 : ℚ)
    let debit := (e.debit.getD 0 : ℚ)
    let rb2 := rb + credit - debit
    { e with
      credit := e.credit.map round2
      debit := e.debit.map round2
      balance := round2 rb2 } :: walkBalance rb2 es

/-- The placeholder entry synthesized when a player has no activity at all. -/
def initialBalanceEntry : LedgerEntry :=
  { date := epochDate, credit := none, debit := none
  , balance := 0, description := "Initial Balance" }

/-- The Ledger Builder (`calc_ledger_for_player`): collect the player's
adjustment (if any), attended games and payments, sort ascending by date,
walk the running balance, fall back to a placeholder entry when there is no
activity, and return the result re-sorted latest-first. -/
def calc_ledger_for_player (st : DBState) (p : String) : List LedgerEntry :=
  let adjEntries :=
    match findAdjustment st.adjustments p with
    | some a => [adjustmentLedgerEntry a]
    | none => []
  let gameEntries := (attendedGames st.games p).map gameLedgerEntry
  let payEntries :=
    (st.payments.filter (fun t => t.player = some p)).map paymentLedgerEntry
  let ledger := adjEntries ++ gameEntries ++ payEntries
  let walked := walkBalance 0 (sortAscByDate ledger)
  let withPlaceholder := if walked.isEmpty then [initialBalanceEntry] else walked
  sortDescByDate withPlaceholder

/-- A bookerless imported game document (no `"Booker"` key): cost 10, one
attendance unit, attended by `"P"`. -/
def gameNoBooker : GameDoc :=
  { gid := 7, date := 40, cost := 10, attendance := [("P", "Draw")]
  , guests := [], units := 1, costEach := 10, booker := none }

/-- A small consistent store: one bookerless game attended by `"P"`, no
payments, no adjustments, `"P"`'s summary row as the recalculator would
produce it. -/
def stBase : DBState :=
  { games := [gameNoBooker]
  , payments := []
  , adjustments := []
  , teamSummary := [{ playerName := "P", gamesAttended := 1, lastPlayed := 40
                    , gamesCost := 10, moniespaid := 0, balance := -10 }]
  , teamPlayers := [{ playerName := "P", retiree := false, comment := "" }] }

/-- An edit form for the bookerless game: same attendee, new cost 12, new
booker `"B"`. -/
def formEditB : GameForm :=
  { gamecost := 12, gamedate := 41
  , playerlist := [{ playername := "P", playedlastgame := true, pitchbooker := false, guests := 0 }]
  , booker := "B" }

/-- A game form naming nobody: no attendees, no guests — zero attendance
units. -/
def formZeroUnits : GameForm :=
  { gamecost := 5, gamedate := 60, playerlist := [], booker := "X" }

/-- The store of the spec's ledger round-trip scenario: player `"P"` has an
Adjustment of +10, attended one game costing 20 split 2 ways on day 15000,
and made one payment of +15 on day 15001. -/
def stLedger : DBState :=
  { games := [{ gid := 1, date := 15000, cost := 20, attendance := [("P", "Draw")]
              , guests := [], units := 2, costEach := 10, booker := none }]
  , payments := [{ player := some "P", ptype := "Bank transfer", amount := 15, date := 15001 }]
  , adjustments := [{ name := "P", adjust := 10 }]
  , teamSummary := []
  , teamPlayers := [] }

/-- The store of the C7 counterexample: player `"Q"` has an Adjustment of +10
and attended one game dated day 0 (1970), i.e. before the hard-coded
2010-01-01 date given to the synthetic opening entry. -/
def stEarlyGame : DBState :=
  { games := [{ gid := 5, date := 0, cost := 8, attendance := [("Q", "Draw")]
              , guests := [], units := 1, costEach := 8, booker := none }]
  , payments := []
  , adjustments := [{ name := "Q", adjust := 10 }]
  , teamSummary := []
  , teamPlayers := [] }

/-- The store of the booker-equals-attendee scenario: `"A"` has a consistent
summary row (paid 3, one past game costing 2, balance 1); `"B"` and `"C"`
are zeroed. -/
def stTrio : DBState :=
  { games := [{ gid := 0, date := 50, cost := 2, attendance := [("A", "Draw")]
              , guests := [], units := 1, costEach := 2, booker := none }]
  , payments := [{ player := some "A", ptype := "Transfer", amount := 3, date := 60 }]
  , adjustments := []
  , teamSummary :=
      [ { playerName := "A", gamesAttended := 1, lastPlayed := 50
        , gamesCost := 2, moniespaid := 3, balance := 1 }
      , { playerName := "B", gamesAttended := 0, lastPlayed := 0
        , gamesCost := 0, moniespaid := 0, balance := 0 }
      , { playerName := "C", gamesAttended := 0, lastPlayed := 0
        , gamesCost := 0, moniespaid := 0, balance := 0 } ]
  , teamPlayers :=
      [ { playerName := "A", retiree := false, comment := "" }
      , { playerName := "B", retiree := false, comment := "" }
      , { playerName := "C", retiree := false, comment := "" } ] }

/-- The game form of the booker-equals-attendee scenario: cost 30, three
attendees `"A"`, `"B"`, `"C"`, no guests, `"A"` both plays and books. -/
def formTrio : GameForm :=
  { gamecost := 30, gamedate := 100
  , playerlist :=
      [ { playername := "A", playedlastgame := true, pitchbooker := true, guests := 0 }
      , { playername := "B", playedlastgame := true, pitchbooker := false, guests := 0 }
      , { playername := "C", playedlastgame := true, pitchbooker := false, guests := 0 } ]
  , booker := "A" }

/-- A game document with a recorded booker `"A"`: cost 10, one attendance
unit, attended by `"P"`. -/
def gameWithBooker : GameDoc :=
  { gid := 3, date := 40, cost := 10, attendance := [("P", "Draw")]
  , guests := [], units := 1, costEach := 10, booker := some "A" }

/-- A store holding `gameWithBooker` and a summary row for its attendee. -/
def stBooked : DBState :=
  { games := [gameWithBooker]
  , payments := []
  , adjustments := []
  , teamSummary := [{ playerName := "P", gamesAttended := 1, lastPlayed := 40
                    , gamesCost := 10, moniespaid := 0, balance := -10 }]
  , teamPlayers := [{ playerName := "P", retiree := false, comment := "" }] }

/-- An edit form keeping booker `"A"` but changing the game cost from 10 to
12 (same single attendee). -/
def formEditCost : GameForm :=
  { gamecost := 12, gamedate := 41
  , playerlist := [{ playername := "P", playedlastgame := true, pitchbooker := false, guests := 0 }]
  , booker := "A" }


end Cffadb

namespace Cffadb

/-- Total attendance units accumulated from a form are never negative. -/
theorem totalFormUnits_nonneg (pl : List FormPlayer) : 0 ≤ totalFormUnits pl := by
  induction pl with
  | nil => simp [totalFormUnits]
  | cons p rest ih =>
    simp only [totalFormUnits]
    split_ifs <;> omega

/-- A summary row found in a prefix is still the one found after appending. -/
theorem findSummaryRow_append_some {rows : List SummaryRow} {p : String} {row : SummaryRow}
    (rows2 : List SummaryRow) (h : findSummaryRow rows p = some row) :
    findSummaryRow (rows ++ rows2) p = some row := by
  induction rows with
  | nil => simp [findSummaryRow] at h
  | cons r rest ih =>
    by_cases hr : r.playerName = p
    · simpa [findSummaryRow, hr] using h
    · simp only [findSummaryRow, hr, if_false, List.cons_append] at h ⊢
      exact ih h

/-- When no row matches, the name is absent from the projected name list. -/
theorem containsName_eq_false_of_find_none {rows : List SummaryRow} {p : String}
    (h : findSummaryRow rows p = none) :
    containsName (rows.map SummaryRow.playerName) p = false := by
  induction rows with
  | nil => rfl
  | cons r rest ih =>
    by_cases hr : r.playerName = p
    · simp [findSummaryRow, hr] at h
    · simp only [findSummaryRow, hr, if_false] at h
      simpa [containsName, hr] using ih h

/-- Appending a row with the sought name to a prefix with no match finds it. -/
theorem findSummaryRow_append_match {rows : List SummaryRow} {p : String}
    (r : SummaryRow) (h : findSummaryRow rows p = none) (hr : r.playerName = p) :
    findSummaryRow (rows ++ [r]) p = some r := by
  induction rows with
  | nil => simp [findSummaryRow, hr]
  | cons q rest ih =>
    by_cases hq : q.playerName = p
    · simp [findSummaryRow, hq] at h
    · simp only [findSummaryRow, hq, if_false] at h
      simpa [findSummaryRow, hq] using ih h

/-- `add_player` never touches the games collection. -/
theorem add_player_games (q c : String) (st : DBState) :
    (add_player q c st).games = st.games := by
  unfold add_player
  split <;> rfl

/-- `add_player` never touches the payments collection. -/
theorem add_player_payments (q c : String) (st : DBState) :
    (add_player q c st).payments = st.payments := by
  unfold add_player
  split <;> rfl

/-- `add_player` preserves any summary row that was already found. -/
theorem add_player_preserves_found {st : DBState} {p : String} {row : SummaryRow}
    (q c : String) (h : findSummaryRow st.teamSummary p = some row) :
    findSummaryRow (add_player q c st).teamSummary p = some row := by
  unfold add_player
  split
  · exact h
  · exact findSummaryRow_append_some _ h

/-- After `add_player` on a name with no summary row, the zeroed row is
found. -/
theorem add_player_after_missing {st : DBState} {p : String}
    (c : String) (h : findSummaryRow st.teamSummary p = none) :
    findSummaryRow (add_player p c st).teamSummary p = some (zeroSummaryRow p) := by
  unfold add_player
  rw [containsName_eq_false_of_find_none h]
  simp only [Bool.false_eq_true, if_false]
  exact findSummaryRow_append_match _ h rfl

/-- Replacing the first `q`-row with a name- and moniespaid-preserving patch
leaves the moniespaid view of every lookup unchanged. -/
theorem findSummaryRow_updateFirstRow_moniespaid
    (rows : List SummaryRow) (q : String) (f : SummaryRow → SummaryRow) (p : String)
    (hname : ∀ r, (f r).playerName = r.playerName)
    (hm : ∀ r, (f r).moniespaid = r.moniespaid) :
    (findSummaryRow (updateFirstRow rows q f) p).map SummaryRow.moniespaid
      = (findSummaryRow rows p).map SummaryRow.moniespaid := by
  induction rows with
  | nil => rfl
  | cons r rest ih =>
    simp only [updateFirstRow]
    by_cases hq : r.playerName = q
    · rw [if_pos hq]
      simp only [findSummaryRow, hname]
      by_cases hp : r.playerName = p
      · rw [if_pos hp, if_pos hp]
        simp [hm]
      · rw [if_neg hp, if_neg hp]
    · rw [if_neg hq]
      simp only [findSummaryRow]
      by_cases hp : r.playerName = p
      · rw [if_pos hp, if_pos hp]
      · rw [if_neg hp, if_neg hp]
        exact ih

/-- Specialisation of the patch lemma to the attendance patch. -/
theorem updateFirstRow_playedUpdate_moniespaid
    (rows : List SummaryRow) (q : String) (d : Date) (c : Money) (p : String) :
    (findSummaryRow (updateFirstRow rows q (playedUpdate d c)) p).map SummaryRow.moniespaid
      = (findSummaryRow rows p).map SummaryRow.moniespaid :=
  findSummaryRow_updateFirstRow_moniespaid rows q _ p (fun _ => rfl) (fun _ => rfl)

/-- Specialisation of the patch lemma to the booking-credit patch. -/
theorem updateFirstRow_bookerUpdate_moniespaid
    (rows : List SummaryRow) (q : String) (c : Money) (p : String) :
    (findSummaryRow (updateFirstRow rows q (bookerUpdate c)) p).map SummaryRow.moniespaid
      = (findSummaryRow rows p).map SummaryRow.moniespaid :=
  findSummaryRow_updateFirstRow_moniespaid rows q _ p (fun _ => rfl) (fun _ => rfl)

/-- Specialisation of the patch lemma to the guest patch. -/
theorem updateFirstRow_guestUpdate_moniespaid
    (rows : List SummaryRow) (q : String) (c : Money) (n : Int) (p : String) :
    (findSummaryRow (updateFirstRow rows q (guestUpdate c n)) p).map SummaryRow.moniespaid
      = (findSummaryRow rows p).map SummaryRow.moniespaid :=
  findSummaryRow_updateFirstRow_moniespaid rows q _ p (fun _ => rfl) (fun _ => rfl)

/-- The per-player effects of `add_game` never touch the games collection. -/
theorem addGamePlayerEffects_games (form : GameForm) (costEach : Money)
    (q : FormPlayer) (st : DBState) :
    (addGamePlayerEffects form costEach q st).games = st.games := by
  unfold addGamePlayerEffects
  split_ifs <;> rfl

/-- The per-player effects of `add_game` preserve the moniespaid view. -/
theorem addGamePlayerEffects_moniespaid (form : GameForm) (costEach : Money)
    (q : FormPlayer) (st : DBState) (p : String) :
    (findSummaryRow (addGamePlayerEffects form costEach q st).teamSummary p).map
        SummaryRow.moniespaid
      = (findSummaryRow st.teamSummary p).map SummaryRow.moniespaid := by
  unfold addGamePlayerEffects
  split_ifs <;>
    simp only [updateFirstRow_playedUpdate_moniespaid, updateFirstRow_bookerUpdate_moniespaid,
      updateFirstRow_guestUpdate_moniespaid]

/-- The `add_game` player loop never touches the games collection. -/
theorem addGameLoop_games (form : GameForm) (costEach : Money) :
    ∀ (pl : List FormPlayer) (st : DBState),
      (addGameLoop form costEach pl st).fst.games = st.games := by
  intro pl
  induction pl with
  | nil => intro st; rfl
  | cons q rest ih =>
    intro st
    unfold addGameLoop
    cases hfind : findSummaryRow st.teamSummary q.playername with
    | some row => rw [ih]; exact addGamePlayerEffects_games _ _ _ _
    | none =>
      by_cases he : q.playername = ""
      · simp only [he, if_true]
        split
        · rfl
        · exact ih st
      · simp only [he, if_false]
        cases hfind2 : findSummaryRow
            (add_player q.playername "Created from a New Game" st).teamSummary
            q.playername with
        | none => exact add_player_games _ _ _
        | some row =>
          rw [ih, addGamePlayerEffects_games, add_player_games]

/-- The `add_game` player loop preserves the moniespaid view of any player
who already had a summary row. -/
theorem addGameLoop_moniespaid (form : GameForm) (costEach : Money) :
    ∀ (pl : List FormPlayer) (st : DBState) (p : String) (m : Money),
      (findSummaryRow st.teamSummary p).map SummaryRow.moniespaid = some m →
      (findSummaryRow (addGameLoop form costEach pl st).fst.teamSummary p).map
          SummaryRow.moniespaid = some m := by
  intro pl
  induction pl with
  | nil => intro st p m h; exact h
  | cons q rest ih =>
    intro st p m h
    unfold addGameLoop
    cases hfind : findSummaryRow st.teamSummary q.playername with
    | some row =>
      exact ih _ _ _ ((addGamePlayerEffects_moniespaid form costEach q st p).trans h)
    | none =>
      by_cases he : q.playername = ""
      · simp only [he, if_true]
        split
        · exact h
        · exact ih st p m h
      · simp only [he, if_false]
        obtain ⟨row, hrow⟩ : ∃ row, findSummaryRow st.teamSummary p = some row := by
          cases hr : findSummaryRow st.teamSummary p with
          | none => rw [hr] at h; simp at h
          | some row => exact ⟨row, rfl⟩
        have hkeep := add_player_preserves_found
          q.playername "Created from a New Game" hrow
        cases hfind2 : findSummaryRow
            (add_player q.playername "Created from a New Game" st).teamSummary
            q.playername with
        | none =>
          rw [hkeep, ← hrow]
          exact h
        | some row2 =>
          refine ih _ _ _ ?_
          rw [addGamePlayerEffects_moniespaid, hkeep, ← hrow]
          exact h

/-- One `edit_game` record step leaves the store untouched apart from what
was passed in. -/
theorem editRecordStep_st (p : FormPlayer) (acc : EditAcc) (st2 : DBState) :
    (editRecordStep p acc st2).st = st2 := rfl

/-- One `edit_game` record step adds exactly the player's unit contribution. -/
theorem editRecordStep_units (p : FormPlayer) (acc : EditAcc) (st2 : DBState) :
    (editRecordStep p acc st2).units
      = acc.units + ((if p.playedlastgame then 1 else 0)
          + (if 0 < p.guests then p.guests else 0)) := by
  simp only [editRecordStep]
  split_ifs <;> omega

/-- The `edit_game` player loop always completes (the `add_player` fallback
always produces the missing row), never touches games or payments, and
accumulates exactly the form's attendance units. -/
theorem editPlayersLoop_completes :
    ∀ (pl : List FormPlayer) (acc : EditAcc),
      ∃ acc2, editPlayersLoop pl acc = .inl acc2
        ∧ acc2.st.games = acc.st.games
        ∧ acc2.st.payments = acc.st.payments
        ∧ acc2.units = acc.units + totalFormUnits pl := by
  intro pl
  induction pl with
  | nil =>
    intro acc
    exact ⟨acc, rfl, rfl, rfl, by simp [totalFormUnits]⟩
  | cons p rest ih =>
    intro acc
    unfold editPlayersLoop
    cases hfind : findSummaryRow acc.st.teamSummary p.playername with
    | some row =>
      obtain ⟨acc2, h1, h2, h3, h4⟩ := ih (editRecordStep p acc acc.st)
      refine ⟨acc2, h1, ?_, ?_, ?_⟩
      · rw [h2, editRecordStep_st]
      · rw [h3, editRecordStep_st]
      · rw [h4, editRecordStep_units]
        simp only [totalFormUnits]
        omega
    | none =>
      by_cases he : p.playername = ""
      · rw [if_pos he]
        obtain ⟨acc2, h1, h2, h3, h4⟩ := ih (editRecordStep p acc acc.st)
        refine ⟨acc2, h1, ?_, ?_, ?_⟩
        · rw [h2, editRecordStep_st]
        · rw [h3, editRecordStep_st]
        · rw [h4, editRecordStep_units]
          simp only [totalFormUnits]
          omega
      · rw [if_neg he]
        simp only [add_player_after_missing "Created from an Edited Game" hfind]
        obtain ⟨acc2, h1, h2, h3, h4⟩ :=
          ih (editRecordStep p acc (add_player p.playername "Created from an Edited Game" acc.st))
        refine ⟨acc2, h1, ?_, ?_, ?_⟩
        · rw [h2, editRecordStep_st, add_player_games]
        · rw [h3, editRecordStep_st, add_player_payments]
        · rw [h4, editRecordStep_units]
          simp only [totalFormUnits]
          omega

/-- `delete_one` only removes: every remaining document was there before. -/
theorem mem_of_mem_deleteGameById :
    ∀ {games : List GameDoc} {gid : Nat} {g2 : GameDoc},
      g2 ∈ deleteGameById games gid → g2 ∈ games := by
  intro games
  induction games with
  | nil => intro gid g2 h; exact absurd h (List.not_mem_nil g2)
  | cons g rest ih =>
    intro gid g2 h
    simp only [deleteGameById] at h
    by_cases hg : g.gid = gid
    · rw [if_pos hg] at h
      exact List.mem_cons_of_mem g h
    · rw [if_neg hg] at h
      rcases List.mem_cons.mp h with h | h
      · exact h ▸ List.mem_cons_self g rest
      · exact List.mem_cons_of_mem g (ih h)

/-- Stable ascending insertion is a permutation of consing. -/
theorem insAsc_perm (e : LedgerEntry) (l : List LedgerEntry) :
    List.Perm (insAsc e l) (e :: l) := by
  induction l with
  | nil => exact List.Perm.refl _
  | cons x xs ih =>
    simp only [insAsc]
    split_ifs
    · exact List.Perm.refl _
    · exact (List.Perm.cons x ih).trans (List.Perm.swap e x xs)

/-- The ascending sort permutes its input. -/
theorem sortAscByDate_perm (l : List LedgerEntry) : List.Perm (sortAscByDate l) l := by
  induction l with
  | nil => exact List.Perm.refl _
  | cons x xs ih =>
    show List.Perm (insAsc x (sortAscByDate xs)) (x :: xs)
    exact (insAsc_perm x _).trans (List.Perm.cons x ih)

/-- Stable descending insertion is a permutation of consing. -/
theorem insDesc_perm (e : LedgerEntry) (l : List LedgerEntry) :
    List.Perm (insDesc e l) (e :: l) := by
  induction l with
  | nil => exact List.Perm.refl _
  | cons x xs ih =>
    simp only [insDesc]
    split_ifs
    · exact List.Perm.refl _
    · exact (List.Perm.cons x ih).trans (List.Perm.swap e x xs)

/-- The descending sort permutes its input. -/
theorem sortDescByDate_perm (l : List LedgerEntry) : List.Perm (sortDescByDate l) l := by
  induction l with
  | nil => exact List.Perm.refl _
  | cons x xs ih =>
    show List.Perm (insDesc x (sortDescByDate xs)) (x :: xs)
    exact (insDesc_perm x _).trans (List.Perm.cons x ih)

/-- Every entry of the running-balance walk's input appears in its output
with the same description and date, and presentation-rounded figures. -/
theorem walkBalance_mem_of_mem {l : List LedgerEntry} {e : LedgerEntry} (h : e ∈ l) :
    ∀ rb : ℚ, ∃ e2 ∈ walkBalance rb l,
      e2.description = e.description ∧ e2.date = e.date
        ∧ e2.credit = e.credit.map round2 ∧ e2.debit = e.debit.map round2 := by
  induction l with
  | nil => cases h
  | cons x xs ih =>
    intro rb
    rcases List.mem_cons.mp h with he | hx
    · subst he
      exact ⟨_, List.mem_cons_self _ _, rfl, rfl, rfl, rfl⟩
    · obtain ⟨e2, hmem, hprops⟩ := ih hx (rb + (x.credit.getD 0 : ℚ) - (x.debit.getD 0 : ℚ))
      exact ⟨e2, List.mem_cons_of_mem _ hmem, hprops⟩

/-- C1: after a full Summary Recalculator pass, every stored summary row
satisfies `balance = moniespaid - gamesCost + adjustment` exactly, with
`moniespaid` the payment aggregate (defaulting to 0), `adjustment` defaulting
to 0 when the player has no Adjustment document, and `gamesCost` the sum of
per-game cost shares over attended games plus share-times-guest-count over
games where the player hosts guests. -/
theorem recalculated_summary_balance_invariant
    (st : DBState) (players : List String) (row : SummaryRow)
    (hrow : row ∈ (calc_populate_team_summary players st).teamSummary) :
    row.balance = row.moniespaid - row.gamesCost + adjustFor st row.playerName
      ∧ row.gamesCost = attendedCost st.games row.playerName + guestCost st.games row.playerName
      ∧ row.moniespaid = aggregatedPayments st.payments row.playerName := by
  simp only [calc_populate_team_summary, List.mem_map] at hrow
  obtain ⟨p, _, rfl⟩ := hrow
  exact ⟨rfl, rfl, rfl⟩

/-- C5: running the Summary Recalculator twice in a row over the same player
list with no intervening writes leaves the PlayerSummary collection with
contents identical to those after the first run. -/
theorem recalculate_twice_idempotent (players : List String) (st : DBState) :
    (calc_populate_team_summary players (calc_populate_team_summary players st)).teamSummary
      = (calc_populate_team_summary players st).teamSummary := rfl

/-- C6 counterexample: in the spec's ledger round-trip scenario the middle
entry (the attended game) carries running balance 0, not the claimed 5:
after the +10 opening adjustment a debit of 10 leaves 0. -/
theorem ledger_round_trip_middle_balance_is_zero :
    ((calc_ledger_for_player stLedger "P").get? 1).map LedgerEntry.balance = some 0
      ∧ some (0 : Money) ≠ some (5 : Money) := by
  have hdraw : attendedValue "Draw" = true := by decide
  constructor
  · norm_num [calc_ledger_for_player, stLedger, findAdjustment, adjustmentLedgerEntry,
      attendedGames, GameDoc.attended, lookupKey, hdraw, gameLedgerEntry, paymentLedgerEntry,
      gameShare, List.filter, sortAscByDate, sortDescByDate, insAsc, insDesc, walkBalance,
      round2, roundHalfEven, Rat.divInt_eq_div, adjustmentDate, List.get?]
  · norm_num

/-- C6 (amended): the ledger for the round-trip scenario is, latest first:
day 15001 credit 15 balance 15, then the day-15000 game debit 10 with
balance 0, then the adjustment credit 10 with balance 10. -/
theorem ledger_round_trip_amended :
    calc_ledger_for_player stLedger "P" =
      [ { date := 15001, credit := some 15, debit := none, balance := 15
        , description := "Bank transfer" }
      , { date := 15000, credit := none, debit := some 10, balance := 0
        , description := "Game" }
      , { date := adjustmentDate, credit := some 10, debit := none, balance := 10
        , description := "Initial balance adjustment" } ] := by
  have hdraw : attendedValue "Draw" = true := by decide
  norm_num [calc_ledger_for_player, stLedger, findAdjustment, adjustmentLedgerEntry,
    attendedGames, GameDoc.attended, lookupKey, hdraw, gameLedgerEntry, paymentLedgerEntry,
    gameShare, List.filter, sortAscByDate, sortDescByDate, insAsc, insDesc, walkBalance,
    round2, roundHalfEven, Rat.divInt_eq_div, adjustmentDate]

/-- C7 counterexample: for a player whose attended game predates 2010-01-01,
the opening entry synthesized from the Adjustment is dated 2010-01-01 and is
therefore NOT dated before the game's ledger entry. -/
theorem ledger_adjustment_entry_not_before_early_game :
    (calc_ledger_for_player stEarlyGame "Q").get? 0 =
        some { date := adjustmentDate, credit := some 10, debit := none, balance := 2
             , description := "Initial balance adjustment" }
      ∧ (calc_ledger_for_player stEarlyGame "Q").get? 1 =
        some { date := 0, credit := none, debit := some 8, balance := -8
             , description := "Game" }
      ∧ ¬ adjustmentDate < (0 : Date) := by
  have hdraw : attendedValue "Draw" = true := by decide
  refine ⟨?_, ?_, by decide⟩ <;>
    norm_num [calc_ledger_for_player, stEarlyGame, findAdjustment, adjustmentLedgerEntry,
      attendedGames, GameDoc.attended, lookupKey, hdraw, gameLedgerEntry, paymentLedgerEntry,
      gameShare, List.filter, sortAscByDate, sortDescByDate, insAsc, insDesc, walkBalance,
      round2, roundHalfEven, Rat.divInt_eq_div, adjustmentDate, List.get?]

/-- C8: for a game costing 30 split across 3 attendance units where attendee
`"A"` is also the booker, `add_game` moves `"A"`'s stored balance from 1 to
`1 - costPerUnit + cost = 1 - 10 + 30 = 21`: the attendance debit and the
booking credit both apply to the same player for the same game. -/
theorem add_game_booker_attendee_net_delta :
    (add_game formTrio stTrio).snd = .returned true
      ∧ findSummaryRow (add_game formTrio stTrio).fst.teamSummary "A" =
        some { playerName := "A", gamesAttended := 2, lastPlayed := 100
             , gamesCost := 12, moniespaid := 3, balance := 21 }
      ∧ (21 : Money) = 1 - 30 / 3 + 30 := by
  have hAB : (("A" : String) = "B") = False := by decide
  have hAC : (("A" : String) = "C") = False := by decide
  have hBA : (("B" : String) = "A") = False := by decide
  have hBC : (("B" : String) = "C") = False := by decide
  have hCA : (("C" : String) = "A") = False := by decide
  have hCB : (("C" : String) = "B") = False := by decide
  have hAe : (("A" : String) = "") = False := by decide
  have hBe : (("B" : String) = "") = False := by decide
  have hCe : (("C" : String) = "") = False := by decide
  refine ⟨?_, ?_, by norm_num⟩ <;>
    norm_num [add_game, formTrio, stTrio, totalFormUnits, addGameLoop, addGamePlayerEffects,
      findSummaryRow, updateFirstRow, playedUpdate, bookerUpdate, guestUpdate, add_player,
      buildAttendance, buildGuests, freshGid, setKey,
      hAB, hAC, hBA, hBC, hCA, hCB, hAe, hBe, hCe]

/-- C2 counterexample: a zero-unit game submitted to `add_game` makes the
operation raise `ZeroDivisionError`, not the `InvalidGameError` the claim
names — no such exception class exists anywhere in the code. -/
theorem add_game_zero_units_raises_zero_division :
    add_game formZeroUnits stBase = (stBase, .raised PyError.zeroDivisionError)
      ∧ totalFormUnits formZeroUnits.playerlist ≤ 0
      ∧ (PyResult.raised PyError.zeroDivisionError : PyResult Bool)
          ≠ .raised PyError.invalidGameError := by
  refine ⟨?_, by decide, by decide⟩
  norm_num [add_game, formZeroUnits, totalFormUnits]

/-- C3 counterexample: editing a bookerless imported game with a changed cost
and booker inserts only the first compensating payment and then raises (the
source interpolates the `None` booker into a log string), so "exactly two
compensating payments when booker or cost changed" fails on such an edit. -/
theorem edit_game_bookerless_single_compensation :
    findGame stBase.games 7 = some gameNoBooker
      ∧ (gameNoBooker.booker ≠ some formEditB.booker ∨ gameNoBooker.cost ≠ formEditB.gamecost)
      ∧ (edit_game 7 formEditB 500 stBase).snd = .raised PyError.noneTypeError
      ∧ (edit_game 7 formEditB 500 stBase).fst.payments
          = [editRemovePayment gameNoBooker.booker gameNoBooker.cost formEditB 500]
      ∧ (edit_game 7 formEditB 500 stBase).fst.payments.length ≠ 2 := by
  have hpurge : purgeAttendance [("P", "Draw")] ["P"] = [("P", "Draw")] := by decide
  refine ⟨rfl, by decide, ?_, ?_, ?_⟩ <;>
    norm_num [edit_game, findGame, stBase, gameNoBooker, formEditB, editPlayersLoop,
      findSummaryRow, editRecordStep, setKey, delKey, hpurge, deleteGameById,
      editRemovePayment]

/-- C4: deleting a game inserts exactly one compensating payment — the
negative of the full cost attributed to the recorded booker, or a zero-amount
manual-review entry when the document has no booker — then removes the game
document and rebuilds every player's summary row via the Summary
Recalculator. -/
theorem delete_game_compensates_and_rebuilds
    (gid : Nat) (now : Date) (st : DBState) (g : GameDoc)
    (hfind : findGame st.games gid = some g) :
    delete_game gid now st =
      (calc_populate_team_summary (st.teamSummary.map SummaryRow.playerName)
        { st with
          payments := st.payments ++ [deletePayment g now]
          games := deleteGameById st.games gid },
        .returned (deleteMessage g))
      ∧ (∀ b, g.booker = some b →
          deletePayment g now =
            { player := some b
            , ptype := "CFFA Game Deletion for " ++ dateString g.date ++
                ". Booker removal - game credit"
            , amount := -g.cost
            , date := now })
      ∧ (g.booker = none →
          deletePayment g now =
            { player := none
            , ptype := "CFFA Game Deletion for " ++ dateString g.date ++
                ". No booker set: no booker credit."
            , amount := 0
            , date := now }) := by
  refine ⟨?_, ?_, ?_⟩
  · simp only [delete_game, hfind]
  · intro b hb
    simp [deletePayment, hb]
  · intro hb
    simp [deletePayment, hb]

/-- C4 witness: deleting `gameWithBooker` (cost 10, booker `"A"`) from
`stBooked` at time 500 instantiates the deletion contract. -/
theorem delete_game_compensates_and_rebuilds_witness :
    delete_game 3 500 stBooked =
      (calc_populate_team_summary (stBooked.teamSummary.map SummaryRow.playerName)
        { stBooked with
          payments := stBooked.payments ++ [deletePayment gameWithBooker 500]
          games := deleteGameById stBooked.games 3 },
        .returned (deleteMessage gameWithBooker))
      ∧ (∀ b, gameWithBooker.booker = some b →
          deletePayment gameWithBooker 500 =
            { player := some b
            , ptype := "CFFA Game Deletion for " ++ dateString gameWithBooker.date ++
                ". Booker removal - game credit"
            , amount := -gameWithBooker.cost
            , date := 500 })
      ∧ (gameWithBooker.booker = none →
          deletePayment gameWithBooker 500 =
            { player := none
            , ptype := "CFFA Game Deletion for " ++ dateString gameWithBooker.date ++
                ". No booker set: no booker credit."
            , amount := 0
            , date := 500 }) :=
  delete_game_compensates_and_rebuilds 3 500 stBooked gameWithBooker rfl

/-- C10: when the deleted game document has no `Booker` key, the single
zero-amount compensating payment carries `Player = None`: the field is copied
from the game document before the booker-existence check. -/
theorem delete_game_no_booker_payment_player_is_none
    (gid : Nat) (now : Date) (st : DBState) (g : GameDoc)
    (hfind : findGame st.games gid = some g) (hnb : g.booker = none) :
    (delete_game gid now st).fst.payments
      = st.payments ++
          [{ player := none
           , ptype := "CFFA Game Deletion for " ++ dateString g.date ++
               ". No booker set: no booker credit."
           , amount := 0
           , date := now }] := by
  simp [delete_game, hfind, deletePayment, hnb, calc_populate_team_summary]

/-- C10 witness: deleting the bookerless `gameNoBooker` from `stBase` at time
500 inserts the zero-amount payment with `Player = None`. -/
theorem delete_game_no_booker_payment_player_is_none_witness :
    (delete_game 7 500 stBase).fst.payments
      = stBase.payments ++
          [{ player := none
           , ptype := "CFFA Game Deletion for " ++ dateString gameNoBooker.date ++
               ". No booker set: no booker credit."
           , amount := 0
           , date := 500 }] :=
  delete_game_no_booker_payment_player_is_none 7 500 stBase gameNoBooker rfl rfl

/-- C2 (amended): a game whose total attendance units are not positive is
rejected by an unhandled `ZeroDivisionError` (there is no `InvalidGameError`
in the code): `add_game` raises before writing anything at all, `edit_game`
raises before touching the games collection (players named on the form may
already have been created), and no game document with non-positive units is
ever stored by either path. -/
theorem zero_unit_games_rejected :
    (∀ (form : GameForm) (st : DBState),
        totalFormUnits form.playerlist ≤ 0 →
        add_game form st = (st, .raised PyError.zeroDivisionError))
      ∧ (∀ (gid : Nat) (form : GameForm) (now : Date) (st : DBState),
          (findGame st.games gid).isSome →
          totalFormUnits form.playerlist ≤ 0 →
          (edit_game gid form now st).snd = .raised PyError.zeroDivisionError
            ∧ (edit_game gid form now st).fst.games = st.games)
      ∧ (∀ (form : GameForm) (st : DBState),
          (∀ g ∈ st.games, 0 < g.units) →
          ∀ g2 ∈ (add_game form st).fst.games, 0 < g2.units)
      ∧ (∀ (gid : Nat) (form : GameForm) (now : Date) (st : DBState),
          (∀ g ∈ st.games, 0 < g.units) →
          ∀ g2 ∈ (edit_game gid form now st).fst.games, 0 < g2.units) := by
  have hzero : ∀ (form : GameForm), totalFormUnits form.playerlist ≤ 0 →
      totalFormUnits form.playerlist = 0 :=
    fun form h => le_antisymm h (totalFormUnits_nonneg form.playerlist)
  refine ⟨?_, ?_, ?_, ?_⟩
  · intro form st h
    rw [add_game, if_pos (hzero form h)]
  · intro gid form now st hsome h
    cases hfind : findGame st.games gid with
    | none => rw [hfind] at hsome; simp at hsome
    | some g =>
      obtain ⟨acc2, h1, h2, h3, h4⟩ := editPlayersLoop_completes form.playerlist
        { st := st, attendance := g.attendance, guests := g.guests
        , teamString := [], units := 0 }
      have hu : acc2.units = 0 := by
        rw [h4, hzero form h]
        simp
      simp only [edit_game, hfind, h1]
      rw [if_pos hu]
      exact ⟨rfl, h2⟩
  · intro form st hpos g2 hg2
    by_cases h0 : totalFormUnits form.playerlist = 0
    · rw [add_game, if_pos h0] at hg2
      exact hpos g2 hg2
    · rw [add_game, if_neg h0] at hg2
      rw [addGameLoop_games] at hg2
      rcases List.mem_append.mp hg2 with hold | hnew
      · exact hpos g2 hold
      · have := totalFormUnits_nonneg form.playerlist
        have : g2.units = totalFormUnits form.playerlist := by
          rcases List.mem_singleton.mp hnew with rfl
          rfl
        omega
  · intro gid form now st hpos g2 hg2
    cases hfind : findGame st.games gid with
    | none =>
      rw [edit_game, hfind] at hg2
      exact hpos g2 hg2
    | some g =>
      obtain ⟨acc2, h1, h2, h3, h4⟩ := editPlayersLoop_completes form.playerlist
        { st := st, attendance := g.attendance, guests := g.guests
        , teamString := [], units := 0 }
      have hunits : acc2.units = totalFormUnits form.playerlist := by
        rw [h4]; ring
      simp only [edit_game, hfind, h1] at hg2
      by_cases hu : acc2.units = 0
      · rw [if_pos hu] at hg2
        rw [h2] at hg2
        exact hpos g2 hg2
      · rw [if_neg hu] at hg2
        have hmem : g2 ∈ deleteGameById acc2.st.games gid ++
            [{ gid := gid, date := form.gamedate, cost := form.gamecost
             , attendance := purgeAttendance acc2.attendance acc2.teamString
             , guests := acc2.guests, units := acc2.units
             , costEach := form.gamecost / (acc2.units : Money)
             , booker := some form.booker }] := by
          split_ifs at hg2 with hch
          · cases hb : g.booker with
            | none => rw [hb] at hg2; exact hg2
            | some b => rw [hb] at hg2; exact hg2
          · exact hg2
        rcases List.mem_append.mp hmem with hold | hnew
        · rw [h2] at hold
          exact hpos g2 (mem_of_mem_deleteGameById hold)
        · have hnn := totalFormUnits_nonneg form.playerlist
          have : g2.units = acc2.units := by
            rcases List.mem_singleton.mp hnew with rfl
            rfl
          omega

/-- C2 witness: the zero-unit form is rejected by both paths on concrete
stores, and the unit invariant is preserved by concrete create and edit
calls. -/
theorem zero_unit_games_rejected_witness :
    add_game formZeroUnits stBase = (stBase, .raised PyError.zeroDivisionError)
      ∧ ((edit_game 7 formZeroUnits 500 stBase).snd = .raised PyError.zeroDivisionError
          ∧ (edit_game 7 formZeroUnits 500 stBase).fst.games = stBase.games)
      ∧ (∀ g2 ∈ (add_game formTrio stTrio).fst.games, 0 < g2.units)
      ∧ (∀ g2 ∈ (edit_game 7 formEditB 500 stBase).fst.games, 0 < g2.units) :=
  ⟨zero_unit_games_rejected.1 formZeroUnits stBase (by decide),
   zero_unit_games_rejected.2.1 7 formZeroUnits 500 stBase (by rfl) (by decide),
   zero_unit_games_rejected.2.2.1 formTrio stTrio (by decide),
   zero_unit_games_rejected.2.2.2 7 formEditB 500 stBase (by decide)⟩

/-- C3 (amended): on every edit that completes successfully (in particular
the original game document carries a booker — a bookerless original crashes
the edit after the first compensation), exactly two compensating payments
are inserted iff the booker or the total game cost changed: first the
negative of the original cost against the original booker, then the full new
cost against the new booker; no compensation is inserted when neither
changed. -/
theorem edit_game_compensation_on_success
    (gid : Nat) (form : GameForm) (now : Date) (st : DBState) (g : GameDoc)
    (hfind : findGame st.games gid = some g)
    (hok : (edit_game gid form now st).snd = .returned true) :
    (edit_game gid form now st).fst.payments
      = st.payments ++
          (if g.booker ≠ some form.booker ∨ g.cost ≠ form.gamecost
           then [editRemovePayment g.booker g.cost form now, editAddPayment form now]
           else [])
      ∧ (editRemovePayment g.booker g.cost form now).amount = -g.cost
      ∧ (editRemovePayment g.booker g.cost form now).player = g.booker
      ∧ (editAddPayment form now).amount = form.gamecost
      ∧ (editAddPayment form now).player = some form.booker := by
  obtain ⟨acc2, h1, h2, h3, h4⟩ := editPlayersLoop_completes form.playerlist
    { st := st, attendance := g.attendance, guests := g.guests
    , teamString := [], units := 0 }
  refine ⟨?_, rfl, rfl, rfl, rfl⟩
  simp only [edit_game, hfind, h1] at hok ⊢
  by_cases hu : acc2.units = 0
  · rw [if_pos hu] at hok
    simp at hok
  · rw [if_neg hu] at hok ⊢
    by_cases hch : g.booker ≠ some form.booker ∨ g.cost ≠ form.gamecost
    · simp only [if_pos hch] at hok ⊢
      cases hb : g.booker with
      | none =>
        rw [hb] at hok
        simp at hok
      | some b =>
        simp only [calc_populate_team_summary]
        rw [h3]
        simp [List.append_assoc]
    · simp only [if_neg hch] at hok ⊢
      simp only [calc_populate_team_summary]
      rw [h3]
      simp

/-- C3 witness: editing `gameWithBooker` (booker `"A"`, cost 10) into cost 12
with the same booker succeeds and inserts exactly the two compensating
payments. -/
theorem edit_game_compensation_on_success_witness :
    (edit_game 3 formEditCost 500 stBooked).fst.payments
      = stBooked.payments ++
          (if gameWithBooker.booker ≠ some formEditCost.booker
              ∨ gameWithBooker.cost ≠ formEditCost.gamecost
           then [editRemovePayment gameWithBooker.booker gameWithBooker.cost formEditCost 500,
                 editAddPayment formEditCost 500]
           else [])
      ∧ (editRemovePayment gameWithBooker.booker gameWithBooker.cost formEditCost 500).amount
        = -gameWithBooker.cost
      ∧ (editRemovePayment gameWithBooker.booker gameWithBooker.cost formEditCost 500).player
        = gameWithBooker.booker
      ∧ (editAddPayment formEditCost 500).amount = formEditCost.gamecost
      ∧ (editAddPayment formEditCost 500).player = some formEditCost.booker := by
  refine edit_game_compensation_on_success 3 formEditCost 500 stBooked gameWithBooker rfl ?_
  have hpurge : purgeAttendance [("P", "Draw")] ["P"] = [("P", "Draw")] := by decide
  norm_num [edit_game, findGame, stBooked, gameWithBooker, formEditCost, editPlayersLoop,
    findSummaryRow, editRecordStep, setKey, delKey, hpurge, deleteGameById]

/-- C9: `add_game` never writes the `moniespaid` field of any existing
summary row — even the booker's, although a "CFFA Booking Credit" payment is
inserted and the full game cost is added to their stored balance — so
immediately after `add_game` with a booker the stored row violates
`balance = moniespaid - gamesCost + adjustment` (witnessed concretely on the
trio scenario) until the next full recalculation. -/
theorem add_game_leaves_moniespaid_unchanged
    (form : GameForm) (st : DBState) (p : String) (row : SummaryRow)
    (h : findSummaryRow st.teamSummary p = some row) :
    (findSummaryRow (add_game form st).fst.teamSummary p).map SummaryRow.moniespaid
        = some row.moniespaid
      ∧ ((add_game formTrio stTrio).fst.payments
          = stTrio.payments ++
              [{ player := some "A", ptype := "CFFA Booking Credit"
               , amount := 30, date := 100 }]
        ∧ ∃ r, findSummaryRow (add_game formTrio stTrio).fst.teamSummary "A" = some r
            ∧ r.balance ≠ r.moniespaid - r.gamesCost
                + adjustFor (add_game formTrio stTrio).fst "A") := by
  have hAB : (("A" : String) = "B") = False := by decide
  have hAC : (("A" : String) = "C") = False := by decide
  have hBA : (("B" : String) = "A") = False := by decide
  have hBC : (("B" : String) = "C") = False := by decide
  have hCA : (("C" : String) = "A") = False := by decide
  have hCB : (("C" : String) = "B") = False := by decide
  have hAe : (("A" : String) = "") = False := by decide
  have hBe : (("B" : String) = "") = False := by decide
  have hCe : (("C" : String) = "") = False := by decide
  refine ⟨?_, ?_, ⟨{ playerName := "A", gamesAttended := 2, lastPlayed := 100
                   , gamesCost := 12, moniespaid := 3, balance := 21 }, ?_, ?_⟩⟩
  · unfold add_game
    by_cases h0 : totalFormUnits form.playerlist = 0
    · rw [if_pos h0]
      simp [h]
    · rw [if_neg h0]
      apply addGameLoop_moniespaid
      simp [h]
  · norm_num [add_game, formTrio, stTrio, totalFormUnits, addGameLoop, addGamePlayerEffects,
      findSummaryRow, updateFirstRow, playedUpdate, bookerUpdate, guestUpdate, add_player,
      buildAttendance, buildGuests, freshGid, setKey,
      hAB, hAC, hBA, hBC, hCA, hCB, hAe, hBe, hCe]
  · norm_num [add_game, formTrio, stTrio, totalFormUnits, addGameLoop, addGamePlayerEffects,
      findSummaryRow, updateFirstRow, playedUpdate, bookerUpdate, guestUpdate, add_player,
      buildAttendance, buildGuests, freshGid, setKey,
      hAB, hAC, hBA, hBC, hCA, hCB, hAe, hBe, hCe]
  · norm_num [add_game, formTrio, stTrio, totalFormUnits, addGameLoop, addGamePlayerEffects,
      findSummaryRow, updateFirstRow, playedUpdate, bookerUpdate, guestUpdate, add_player,
      buildAttendance, buildGuests, freshGid, setKey, adjustFor, findAdjustment,
      hAB, hAC, hBA, hBC, hCA, hCB, hAe, hBe, hCe]

/-- C9 witness: instantiated on the trio scenario at player `"A"`, whose row
exists before the call with `moniespaid = 3`. -/
theorem add_game_leaves_moniespaid_unchanged_witness :
    (findSummaryRow (add_game formTrio stTrio).fst.teamSummary "A").map SummaryRow.moniespaid
        = some ({ playerName := "A", gamesAttended := 1, lastPlayed := 50
                , gamesCost := 2, moniespaid := 3, balance := 1 } : SummaryRow).moniespaid
      ∧ ((add_game formTrio stTrio).fst.payments
          = stTrio.payments ++
              [{ player := some "A", ptype := "CFFA Booking Credit"
               , amount := 30, date := 100 }]
        ∧ ∃ r, findSummaryRow (add_game formTrio stTrio).fst.teamSummary "A" = some r
            ∧ r.balance ≠ r.moniespaid - r.gamesCost
                + adjustFor (add_game formTrio stTrio).fst "A") :=
  add_game_leaves_moniespaid_unchanged formTrio stTrio "A"
    { playerName := "A", gamesAttended := 1, lastPlayed := 50
    , gamesCost := 2, moniespaid := 3, balance := 1 } rfl

/-- C1 witness: instantiated on `stBase` with the one-player list `["P"]` and
the recalculated row for `"P"`. -/
theorem recalculated_summary_balance_invariant_witness :
    (summaryRowFor stBase "P").balance
        = (summaryRowFor stBase "P").moniespaid - (summaryRowFor stBase "P").gamesCost
          + adjustFor stBase (summaryRowFor stBase "P").playerName
      ∧ (summaryRowFor stBase "P").gamesCost
        = attendedCost stBase.games (summaryRowFor stBase "P").playerName
          + guestCost stBase.games (summaryRowFor stBase "P").playerName
      ∧ (summaryRowFor stBase "P").moniespaid
        = aggregatedPayments stBase.payments (summaryRowFor stBase "P").playerName :=
  recalculated_summary_balance_invariant stBase ["P"] (summaryRowFor stBase "P")
    (by simp [calc_populate_team_summary])

/-- Every entry fed into the sort/walk/re-sort pipeline of the Ledger Builder
survives into the returned statement, with its description and date intact
and its figures presentation-rounded. -/
theorem ledger_pipeline_mem {l0 : List LedgerEntry} {e : LedgerEntry} (h : e ∈ l0) :
    ∃ e2 ∈ sortDescByDate
        (if (walkBalance 0 (sortAscByDate l0)).isEmpty then [initialBalanceEntry]
         else walkBalance 0 (sortAscByDate l0)),
      e2.description = e.description ∧ e2.date = e.date
        ∧ e2.credit = e.credit.map round2 ∧ e2.debit = e.debit.map round2 := by
  have hmem1 := (sortAscByDate_perm l0).mem_iff.mpr h
  obtain ⟨e2, hmem2, hprops⟩ := walkBalance_mem_of_mem hmem1 0
  have hne : (walkBalance 0 (sortAscByDate l0)).isEmpty = false := by
    cases hw : walkBalance 0 (sortAscByDate l0) with
    | nil => rw [hw] at hmem2; cases hmem2
    | cons y ys => rfl
  simp only [hne, Bool.false_eq_true, if_false]
  exact ⟨e2, (sortDescByDate_perm _).mem_iff.mpr hmem2, hprops⟩

/-- C7 (amended): the opening entry synthesized from a player's Adjustment is
dated with the fixed sentinel 2010-01-01 — not before all of the player's
activity — appearing as a credit of the adjustment when it is positive and as
a debit of its absolute value otherwise; it therefore precedes exactly those
ledger entries dated strictly after 2010-01-01. -/
theorem ledger_adjustment_opening_entry
    (st : DBState) (p : String) (a : AdjustmentDoc)
    (hadj : findAdjustment st.adjustments p = some a) :
    ∃ e ∈ calc_ledger_for_player st p,
      e.description = "Initial balance adjustment"
        ∧ e.date = adjustmentDate
        ∧ (0 < a.adjust → e.credit = some (round2 a.adjust) ∧ e.debit = none)
        ∧ (¬ 0 < a.adjust → e.credit = none ∧ e.debit = some (round2 |a.adjust|))
        ∧ ∀ e2 ∈ calc_ledger_for_player st p,
            adjustmentDate < e2.date → e.date < e2.date := by
  simp only [calc_ledger_for_player, hadj, List.singleton_append]
  obtain ⟨e2, hmem, hdesc, hdate, hcr, hdb⟩ :=
    ledger_pipeline_mem (List.mem_cons_self (adjustmentLedgerEntry a)
      ((attendedGames st.games p).map gameLedgerEntry ++
        (st.payments.filter (fun t => t.player = some p)).map paymentLedgerEntry))
  have hdateAdj : e2.date = adjustmentDate := by
    rw [hdate]
    unfold adjustmentLedgerEntry
    split_ifs <;> rfl
  refine ⟨e2, hmem, ?_, hdateAdj, ?_, ?_, ?_⟩
  · rw [hdesc]
    unfold adjustmentLedgerEntry
    split_ifs <;> rfl
  · intro hpos
    constructor
    · rw [hcr]
      simp [adjustmentLedgerEntry, if_pos hpos]
    · rw [hdb]
      simp [adjustmentLedgerEntry, if_pos hpos]
  · intro hneg
    constructor
    · rw [hcr]
      simp [adjustmentLedgerEntry, if_neg hneg]
    · rw [hdb]
      simp [adjustmentLedgerEntry, if_neg hneg]
  · intro e3 _ hlt
    rw [hdateAdj]
    exact hlt

/-- C7 witness: instantiated on the early-game store, whose player `"Q"` has
the Adjustment document with amount +10. -/
theorem ledger_adjustment_opening_entry_witness :
    ∃ e ∈ calc_ledger_for_player stEarlyGame "Q",
      e.description = "Initial balance adjustment"
        ∧ e.date = adjustmentDate
        ∧ (0 < ({ name := "Q", adjust := 10 } : AdjustmentDoc).adjust →
            e.credit = some (round2 ({ name := "Q", adjust := 10 } : AdjustmentDoc).adjust)
              ∧ e.debit = none)
        ∧ (¬ 0 < ({ name := "Q", adjust := 10 } : AdjustmentDoc).adjust →
            e.credit = none
              ∧ e.debit = some (round2 |({ name := "Q", adjust := 10 } : AdjustmentDoc).adjust|))
        ∧ ∀ e2 ∈ calc_ledger_for_player stEarlyGame "Q",
            adjustmentDate < e2.date → e.date < e2.date :=
  ledger_adjustment_opening_entry stEarlyGame "Q" { name := "Q", adjust := 10 } rfl

end Cffadb
